import Mathlib

/-
Verification development for the glif_cond neuron model (glif_cond.h,
NEST simulator): a conductance-based generalized leaky integrate-and-fire
neuron with five mechanism variants selected by three boolean flags.

Doubles are embedded as rationals (exact arithmetic); the adaptive GSL
stepper is treated as a black-box function parameter, as the spec treats it.
Bodies that live in glif_cond.cpp (not part of the given sources) are
modelled from the spec; each such definition is marked in its doc comment.
-/

namespace GlifCond

/-- Index `V_M` of `State_::StateVecElems` (glif_cond.h, enum at lines 271-282). -/
def V_M : ℕ := 0

/-- Index `I` of `State_::StateVecElems` (recordable-only slot). -/
def I : ℕ := 1

/-- Index `ASC_SUM` of `State_::StateVecElems` (recordable-only slot). -/
def ASC_SUM : ℕ := 2

/-- Index `TH` of `State_::StateVecElems` (recordable-only slot). -/
def TH : ℕ := 3

/-- Index `TH_SPK` of `State_::StateVecElems` (recordable-only slot). -/
def TH_SPK : ℕ := 4

/-- Index `TH_VLT` of `State_::StateVecElems` (recordable-only slot). -/
def TH_VLT : ℕ := 5

/-- Index `DG_SYN` of `State_::StateVecElems`. -/
def DG_SYN : ℕ := 6

/-- Index `G_SYN` of `State_::StateVecElems`. -/
def G_SYN : ℕ := 7

/-- `State_::STATE_VECTOR_MIN_SIZE`. -/
def STATE_VECTOR_MIN_SIZE : ℕ := 8

/-- `State_::NUMBER_OF_FIXED_STATES_ELEMENTS` (just `V_M`). -/
def NUMBER_OF_FIXED_STATES_ELEMENTS : ℕ := 1

/-- `State_::NUMBER_OF_RECORDABLES_ELEMENTS = DG_SYN - 1` (the five
recordable-only slots `I, ASC_SUM, TH, TH_SPK, TH_VLT`). -/
def NUMBER_OF_RECORDABLES_ELEMENTS : ℕ := DG_SYN - 1

/-- `State_::NUMBER_OF_STATES_ELEMENTS_PER_RECEPTOR` (`DG_SYN, G_SYN`). -/
def NUMBER_OF_STATES_ELEMENTS_PER_RECEPTOR : ℕ := 2

/-- Exceptions thrown by the model: `BadProperty` from parameter/state
validation, `UnknownReceptorType` (with the offending port) from event-port
validation. -/
inductive Err where
  | BadProperty : Err
  | UnknownReceptorType : ℤ → Err
deriving DecidableEq

deriving instance DecidableEq for Except

/-- `glif_cond::Parameters_` (glif_cond.h lines 211-252). -/
structure Parameters where
  G_ : ℚ
  E_L_ : ℚ
  th_inf_ : ℚ
  C_m_ : ℚ
  t_ref_ : ℚ
  V_reset_ : ℚ
  th_spike_add_ : ℚ
  th_spike_decay_ : ℚ
  voltage_reset_fraction_ : ℚ
  voltage_reset_add_ : ℚ
  th_voltage_index_ : ℚ
  th_voltage_decay_ : ℚ
  asc_init_ : List ℚ
  asc_decay_ : List ℚ
  asc_amps_ : List ℚ
  asc_r_ : List ℚ
  tau_syn_ : List ℚ
  E_rev_ : List ℚ
  has_connections_ : Bool
  has_theta_spike_ : Bool
  has_asc_ : Bool
  has_theta_voltage_ : Bool
deriving DecidableEq

/-- `Parameters_::n_receptors_()` (glif_cond.h lines 404-408): the number of
receptor ports is the size of `tau_syn_`. -/
def Parameters.n_receptors_ (p : Parameters) : ℕ :=
  p.tau_syn_.length

/-- A status-dictionary update: each settable field of the dictionary is
either present or absent (partial update), mirroring `updateValue` lookups. -/
structure ParamUpdate where
  G? : Option ℚ := none
  E_L? : Option ℚ := none
  th_inf? : Option ℚ := none
  C_m? : Option ℚ := none
  t_ref? : Option ℚ := none
  V_reset? : Option ℚ := none
  th_spike_add? : Option ℚ := none
  th_spike_decay? : Option ℚ := none
  voltage_reset_fraction? : Option ℚ := none
  voltage_reset_add? : Option ℚ := none
  th_voltage_index? : Option ℚ := none
  th_voltage_decay? : Option ℚ := none
  asc_init? : Option (List ℚ) := none
  asc_decay? : Option (List ℚ) := none
  asc_amps? : Option (List ℚ) := none
  asc_r? : Option (List ℚ) := none
  tau_syn? : Option (List ℚ) := none
  E_rev? : Option (List ℚ) := none
  spike_dependent_threshold? : Option Bool := none
  after_spike_currents? : Option Bool := none
  adapting_threshold? : Option Bool := none
  V_m? : Option ℚ := none
  ASCurrents? : Option (List ℚ) := none
deriving DecidableEq

/-- Modelled from the spec (§4.1; `Parameters_::set` lives in glif_cond.cpp):
the candidate parameter set is the current one overlaid with every field the
update supplies. -/
def Parameters.overlay (p : Parameters) (d : ParamUpdate) : Parameters :=
  { G_ := d.G?.getD p.G_
    E_L_ := d.E_L?.getD p.E_L_
    th_inf_ := d.th_inf?.getD p.th_inf_
    C_m_ := d.C_m?.getD p.C_m_
    t_ref_ := d.t_ref?.getD p.t_ref_
    V_reset_ := d.V_reset?.getD p.V_reset_
    th_spike_add_ := d.th_spike_add?.getD p.th_spike_add_
    th_spike_decay_ := d.th_spike_decay?.getD p.th_spike_decay_
    voltage_reset_fraction_ := d.voltage_reset_fraction?.getD p.voltage_reset_fraction_
    voltage_reset_add_ := d.voltage_reset_add?.getD p.voltage_reset_add_
    th_voltage_index_ := d.th_voltage_index?.getD p.th_voltage_index_
    th_voltage_decay_ := d.th_voltage_decay?.getD p.th_voltage_decay_
    asc_init_ := d.asc_init?.getD p.asc_init_
    asc_decay_ := d.asc_decay?.getD p.asc_decay_
    asc_amps_ := d.asc_amps?.getD p.asc_amps_
    asc_r_ := d.asc_r?.getD p.asc_r_
    tau_syn_ := d.tau_syn?.getD p.tau_syn_
    E_rev_ := d.E_rev?.getD p.E_rev_
    has_connections_ := p.has_connections_
    has_theta_spike_ := d.spike_dependent_threshold?.getD p.has_theta_spike_
    has_asc_ := d.after_spike_currents?.getD p.has_asc_
    has_theta_voltage_ := d.adapting_threshold?.getD p.has_theta_voltage_ }

/-- Modelled from the spec (Remarks in the user docs, glif_cond.h lines
117-127, and §3): the three mechanism flags
`(spike_dependent_threshold, after_spike_currents, adapting_threshold)` are
legal exactly for the five GLIF model tuples. -/
def legalFlagCombination (s a v : Bool) : Bool :=
  decide ((s, a, v) ∈
    [(false, false, false), (true, false, false), (false, true, false),
     (true, true, false), (true, true, true)])

/-- The after-spike-current arrays of a candidate parameter set all have the
same length (spec §3: required array-length-equality invariant). -/
def ascLengthsOK (c : Parameters) : Bool :=
  decide (c.asc_init_.length = c.asc_decay_.length ∧
    c.asc_decay_.length = c.asc_amps_.length ∧
    c.asc_amps_.length = c.asc_r_.length)

/-- The two per-receptor arrays of a candidate parameter set have the same
length (spec §3: receptor arrays of equal length = receptor count). -/
def receptorLengthsOK (c : Parameters) : Bool :=
  decide (c.tau_syn_.length = c.E_rev_.length)

/-- The rounded refractory-step count is not negative (spec §4.1); with a
positive resolution this is modelled as rejecting a negative `t_ref_`. -/
def trefOK (c : Parameters) : Bool :=
  decide (0 ≤ c.t_ref_)

/-- Modelled from the spec (§4.1; `Parameters_::set` lives in glif_cond.cpp):
overlay the update onto the current parameters, reject if an array-length
invariant is violated, if the flag combination is not one of the five legal
tuples, or if the rounded refractory-step count would be negative; on success
return the candidate together with the shift in resting potential
(`delta_EL`), as the declaration `double set( const DictionaryDatum& )`
requires. -/
def Parameters.set (p : Parameters) (d : ParamUpdate) : Except Err (Parameters × ℚ) :=
  if ¬ ascLengthsOK (p.overlay d) then .error .BadProperty
  else if ¬ receptorLengthsOK (p.overlay d) then .error .BadProperty
  else if ¬ legalFlagCombination (p.overlay d).has_theta_spike_
      (p.overlay d).has_asc_ (p.overlay d).has_theta_voltage_ then
    .error .BadProperty
  else if ¬ trefOK (p.overlay d) then .error .BadProperty
  else .ok (p.overlay d, (p.overlay d).E_L_ - p.E_L_)

/-- `glif_cond::State_` (glif_cond.h lines 255-296): discrete scalars beside
the integrated vector `y_`; `y_[0]` is the membrane voltage relative to rest,
followed by one `(DG_SYN, G_SYN)` pair per receptor. -/
structure State where
  threshold_ : ℚ
  threshold_spike_ : ℚ
  threshold_voltage_ : ℚ
  ASCurrents_ : List ℚ
  ASCurrents_sum_ : ℚ
  refractory_steps_ : ℤ
  y_ : List ℚ
deriving DecidableEq

/-- The per-receptor body carried over from the old integrated vector (spec
§4.2): the old pairs after the fixed voltage slot, truncated to the candidate
receptor count. -/
def stateBody (s : State) (c : Parameters) : List ℚ :=
  (s.y_.drop NUMBER_OF_FIXED_STATES_ELEMENTS).take
    (NUMBER_OF_STATES_ELEMENTS_PER_RECEPTOR * c.n_receptors_)

/-- The re-based rest-relative voltage (spec §4.1/§4.2): an explicitly
supplied absolute `V_m` is stored relative to the candidate resting
potential; otherwise the stored value is shifted by `delta_EL`. -/
def rebasedVoltage (s : State) (d : ParamUpdate) (c : Parameters)
    (delta_EL : ℚ) : ℚ :=
  match d.V_m? with
  | some vm => vm - c.E_L_
  | none => s.y_.getD 0 0 - delta_EL

/-- Modelled from the spec (§4.2; `State_::set` lives in glif_cond.cpp):
validate the candidate state against the candidate parameters (the
after-spike-current array must keep the parameter arrays' length), re-base
the rest-relative voltage by the resting-potential shift `delta_EL` (or take
an explicitly supplied absolute `V_m`), and resize the integrated vector to
`1 + 2·receptor_count`: trailing pairs truncated on decrease, new pairs
appended as zeros on increase. -/
def State.set (s : State) (d : ParamUpdate) (c : Parameters) (delta_EL : ℚ) :
    Except Err State :=
  if ¬ (d.ASCurrents?.getD s.ASCurrents_).length = c.asc_init_.length then
    .error .BadProperty
  else
    .ok { s with
      ASCurrents_ := d.ASCurrents?.getD s.ASCurrents_
      ASCurrents_sum_ := (d.ASCurrents?.getD s.ASCurrents_).sum
      y_ := rebasedVoltage s d c delta_EL ::
        (stateBody s c ++ List.replicate
          (NUMBER_OF_STATES_ELEMENTS_PER_RECEPTOR * c.n_receptors_ -
            (stateBody s c).length) 0) }

/-- Keys of the recordables registry: the six fixed channels plus one
conductance channel per receptor port, named deterministically by the port
index (spec §6; the concrete name strings are rendered in glif_cond.cpp). -/
inductive RecName where
  | V_m : RecName
  | I_rec : RecName
  | ASC_sum : RecName
  | TH_rec : RecName
  | TH_spk : RecName
  | TH_vlt : RecName
  | g : ℕ → RecName
deriving DecidableEq

/-- Modelled from the spec (§6; `get_g_receptor_name` lives in
glif_cond.cpp): the conductance channel of receptor `receptor` is named
deterministically by its index. -/
def get_g_receptor_name (receptor : ℕ) : RecName :=
  RecName.g receptor

/-- The recordables registry, embedded as an association list from channel
name to the state-element index its `DataAccessFunctor` is bound to. -/
abbrev RecMap : Type := List (RecName × ℕ)

/-- `DynamicRecordablesMap::erase( name )`: remove the entry with that key. -/
def rmapErase (m : RecMap) (k : RecName) : RecMap :=
  m.filter (fun e => decide (¬ e.1 = k))

/-- The six fixed recordable channels with the state-element indices they are
bound to (`V_M, I, ASC_SUM, TH, TH_SPK, TH_VLT`). -/
def fixedRecordables : RecMap :=
  [(RecName.V_m, V_M), (RecName.I_rec, I), (RecName.ASC_sum, ASC_SUM),
   (RecName.TH_rec, TH), (RecName.TH_spk, TH_SPK), (RecName.TH_vlt, TH_VLT)]

/-- The conductance entries for receptors `first, …, first + count - 1`:
receptor `r`'s channel is bound to element
`G_SYN + r * NUMBER_OF_STATES_ELEMENTS_PER_RECEPTOR`
(glif_cond.h lines 469-473). -/
def gEntries (first count : ℕ) : RecMap :=
  (List.range' first count).map
    (fun receptor =>
      (get_g_receptor_name receptor,
        G_SYN + receptor * NUMBER_OF_STATES_ELEMENTS_PER_RECEPTOR))

/-- The registry of a neuron with `n` receptor ports: the six fixed channels
followed by one conductance channel per port. -/
def glifRecordablesMap (n : ℕ) : RecMap :=
  fixedRecordables ++ gEntries 0 n

/-- The neuron: parameters `P_`, state `S_`, the injected-current buffer
`B_.I_` used by the `I` recordable, and the recordables registry. -/
structure Neuron where
  P_ : Parameters
  S_ : State
  B_I_ : ℚ
  recordablesMap_ : RecMap
deriving DecidableEq

/-- `glif_cond::get_state_element` (glif_cond.h lines 363-394): the `V_M` and
`TH` channels report the stored rest-relative value shifted by `E_L_`
(absolute values); `I` and `ASC_SUM` report the buffered current and the
after-spike-current sum; `TH_SPK` and `TH_VLT` report the stored components
unshifted; every other element reads
`y_[ elem - NUMBER_OF_RECORDABLES_ELEMENTS ]`. -/
def get_state_element (nrn : Neuron) (elem : ℕ) : ℚ :=
  if elem = V_M then nrn.S_.y_.getD elem 0 + nrn.P_.E_L_
  else if elem = I then nrn.B_I_
  else if elem = ASC_SUM then nrn.S_.ASCurrents_sum_
  else if elem = TH then nrn.S_.threshold_ + nrn.P_.E_L_
  else if elem = TH_SPK then nrn.S_.threshold_spike_
  else if elem = TH_VLT then nrn.S_.threshold_voltage_
  else nrn.S_.y_.getD (elem - NUMBER_OF_RECORDABLES_ELEMENTS) 0

/-- `glif_cond::set_status` (glif_cond.h lines 453-486): validate a candidate
parameter set and candidate state on temporaries (each may throw), then
reconcile the recordables registry with a changed receptor count (insert one
conductance channel per new index, erase the channel of each removed index),
and only then commit the temporaries.  A thrown error is returned together
with the neuron as it stands at the throw point. -/
def set_status (nrn : Neuron) (d : ParamUpdate) : Except (Err × Neuron) Neuron :=
  match Parameters.set nrn.P_ d with
  | .error e => .error (e, nrn)
  | .ok (ptmp, delta_EL) =>
    match State.set nrn.S_ d ptmp delta_EL with
    | .error e => .error (e, nrn)
    | .ok stmp =>
      .ok { nrn with
        P_ := ptmp
        S_ := stmp
        recordablesMap_ :=
          if nrn.P_.n_receptors_ < ptmp.n_receptors_ then
            nrn.recordablesMap_ ++
              gEntries nrn.P_.n_receptors_ (ptmp.n_receptors_ - nrn.P_.n_receptors_)
          else if ptmp.n_receptors_ < nrn.P_.n_receptors_ then
            ((List.range' ptmp.n_receptors_
                (nrn.P_.n_receptors_ - ptmp.n_receptors_)).map
              get_g_receptor_name).foldl rmapErase nrn.recordablesMap_
          else nrn.recordablesMap_ }

/-- `glif_cond::handles_test_event( CurrentEvent&, port )` (glif_cond.h lines
419-427): any port other than 0 raises `UnknownReceptorType`. -/
def handles_test_event_current (receptor_type : ℤ) : Except Err ℤ :=
  if ¬ receptor_type = 0 then .error (.UnknownReceptorType receptor_type)
  else .ok 0

/-- `glif_cond::handles_test_event( DataLoggingRequest&, port )` (glif_cond.h
lines 429-438): any port other than 0 raises `UnknownReceptorType`; on port 0
the request is connected to the logger. -/
def handles_test_event_dlr (receptor_type : ℤ) : Except Err ℤ :=
  if ¬ receptor_type = 0 then .error (.UnknownReceptorType receptor_type)
  else .ok 0

/-- Modelled from the spec (§6; the `SpikeEvent` overload of
`handles_test_event` lives in glif_cond.cpp): a spike event is accepted only
for a port index within `[0, receptor_count)`. -/
def handles_test_event_spike (p : Parameters) (receptor_type : ℤ) : Except Err ℤ :=
  if 0 ≤ receptor_type ∧ receptor_type < (p.n_receptors_ : ℤ) then .ok receptor_type
  else .error (.UnknownReceptorType receptor_type)

/-- Modelled from the spec (§3-§4.5; `glif_cond::update`, `calibrate` and the
`Variables_` they fill live in glif_cond.cpp): the environment of the update
driver — the mechanism flags, reset constants, the cached per-step decay
multipliers of `Variables_`, and the external adaptive stepper, treated as a
black-box function from `(voltage, conductance pairs, injected current)` to
the integrated `(voltage, conductance pairs)`, together with the clamped
variant that evolves only the conductance pairs during refractoriness. -/
structure DriverEnv where
  has_theta_spike_ : Bool
  has_asc_ : Bool
  has_theta_voltage_ : Bool
  th_base_ : ℚ
  V_reset_rel_ : ℚ
  voltage_reset_fraction_ : ℚ
  voltage_reset_add_ : ℚ
  th_spike_add_ : ℚ
  asc_amps_ : List ℚ
  asc_r_ : List ℚ
  RefractoryCounts_ : ℤ
  theta_spike_decay_rate_ : ℚ
  theta_spike_refractory_decay_rate_ : ℚ
  theta_voltage_decay_rate_ : ℚ
  theta_voltage_drive_ : ℚ
  asc_decay_rates_ : List ℚ
  asc_refractory_decay_rates_ : List ℚ
  CondInitialValues_ : List ℚ
  integrate : ℚ → List (ℚ × ℚ) → ℚ → ℚ × List (ℚ × ℚ)
  condEvolveRefr : List (ℚ × ℚ) → List (ℚ × ℚ)

/-- Modelled from the spec (§3, §9): the evolving per-step state of the
update driver — rest-relative voltage, the per-receptor
(conductance derivative-proxy, conductance) pairs, the two threshold
components, the after-spike currents and the refractory counter. -/
structure DriverState where
  v_ : ℚ
  conds_ : List (ℚ × ℚ)
  threshold_spike_ : ℚ
  threshold_voltage_ : ℚ
  ASCurrents_ : List ℚ
  refractory_steps_ : ℤ
deriving DecidableEq

/-- Modelled from the spec (§4.5 step 1): each receptor's drained spike
weight is injected into its conductance derivative-proxy as an instantaneous
jump, scaled by the receptor's cached peak-normalization coefficient. -/
def injectSpikes : List ℚ → List (ℚ × ℚ) → List ℚ → List (ℚ × ℚ)
  | coeffs, dgg :: rest, w :: ws =>
    (dgg.1 + coeffs.headD 0 * w, dgg.2) :: injectSpikes coeffs.tail rest ws
  | _, conds, _ => conds

/-- Modelled from the spec (§4.3): the after-spike-current spike-time reset,
per channel: rescale by the reset-fraction coefficient and increment by the
fixed amplitude. -/
def ascSpikeReset (amps rs ascs : List ℚ) : List ℚ :=
  List.zipWith (fun ar a => ar.1 + ar.2 * a) (amps.zip rs) ascs

/-- Modelled from the spec (§4.5 steps 1-3; `glif_cond::update` lives in
glif_cond.cpp): the continuous evolution of one driver step, before the
spike check.  Spikes are injected into the conductance proxies; if the
refractory counter is positive the voltage is held and the counter
decremented while conductances, after-spike currents and the spike-threshold
component evolve under the refractory-phase rates, otherwise the black-box
stepper advances voltage and conductances and the non-refractory rates
apply; the voltage-dependent component evolves at all times (also through
refractoriness); disabled mechanisms stay frozen at zero. -/
def evolvedState (env : DriverEnv) (st : DriverState) (spikesIn : List ℚ)
    (I_in : ℚ) : DriverState :=
  { v_ :=
      if decide (0 < st.refractory_steps_) then st.v_
      else (env.integrate st.v_
        (injectSpikes env.CondInitialValues_ st.conds_ spikesIn) I_in).1
    conds_ :=
      if decide (0 < st.refractory_steps_) then
        env.condEvolveRefr (injectSpikes env.CondInitialValues_ st.conds_ spikesIn)
      else (env.integrate st.v_
        (injectSpikes env.CondInitialValues_ st.conds_ spikesIn) I_in).2
    threshold_spike_ :=
      if env.has_theta_spike_ then
        (if decide (0 < st.refractory_steps_) then
          env.theta_spike_refractory_decay_rate_
         else env.theta_spike_decay_rate_) * st.threshold_spike_
      else 0
    threshold_voltage_ :=
      if env.has_theta_voltage_ then
        env.theta_voltage_decay_rate_ * st.threshold_voltage_ +
          env.theta_voltage_drive_ *
            (if decide (0 < st.refractory_steps_) then st.v_
             else (env.integrate st.v_
               (injectSpikes env.CondInitialValues_ st.conds_ spikesIn) I_in).1)
      else 0
    ASCurrents_ :=
      if env.has_asc_ then
        List.zipWith (· * ·)
          (if decide (0 < st.refractory_steps_) then
            env.asc_refractory_decay_rates_
           else env.asc_decay_rates_)
          st.ASCurrents_
      else List.replicate st.ASCurrents_.length 0
    refractory_steps_ :=
      if decide (0 < st.refractory_steps_) then st.refractory_steps_ - 1
      else st.refractory_steps_ }

/-- Modelled from the spec (§4.5 step 4): the composite threshold is the
baseline plus the active adaptive components (inactive ones are already
frozen at zero in the evolved state). -/
def compositeThreshold (env : DriverEnv) (es : DriverState) : ℚ :=
  env.th_base_ + es.threshold_spike_ + es.threshold_voltage_

/-- Modelled from the spec (§4.5 step 5, §4.3): the discrete reset applied
when a spike is recorded — fractional voltage reset under the
spike-dependent rule (else `V_reset`), spike-threshold increment,
after-spike-current rescale-and-increment, refractory counter set to the
cached refractory-step count; the voltage component has no spike-time
reset. -/
def spikeReset (env : DriverEnv) (es : DriverState) (th : ℚ) : DriverState :=
  { v_ :=
      if env.has_theta_spike_ then
        env.voltage_reset_fraction_ * th + env.voltage_reset_add_
      else env.V_reset_rel_
    conds_ := es.conds_
    threshold_spike_ :=
      if env.has_theta_spike_ then es.threshold_spike_ + env.th_spike_add_ else 0
    threshold_voltage_ := es.threshold_voltage_
    ASCurrents_ :=
      if env.has_asc_ then
        ascSpikeReset env.asc_amps_ env.asc_r_ es.ASCurrents_
      else es.ASCurrents_
    refractory_steps_ := env.RefractoryCounts_ }

/-- Modelled from the spec (§4.5; `glif_cond::update` lives in
glif_cond.cpp): one simulation step of the update driver — evolve the
continuous state, recompute the composite threshold, and if the voltage has
reached it record a spike and apply the discrete reset.  Returns the next
state and whether a spike was recorded. -/
def glif_update_step (env : DriverEnv) (st : DriverState) (spikesIn : List ℚ)
    (I_in : ℚ) : DriverState × Bool :=
  if compositeThreshold env (evolvedState env st spikesIn I_in) ≤
      (evolvedState env st spikesIn I_in).v_ then
    (spikeReset env (evolvedState env st spikesIn I_in)
      (compositeThreshold env (evolvedState env st spikesIn I_in)), true)
  else (evolvedState env st spikesIn I_in, false)

/-- The driver state before step `k`, starting from `st0`, with `ins k` the
per-step drained (spike weights, injected current) inputs. -/
def glif_state_at (env : DriverEnv) (ins : ℕ → List ℚ × ℚ) (st0 : DriverState) :
    ℕ → DriverState
  | 0 => st0
  | k + 1 =>
    (glif_update_step env (glif_state_at env ins st0 k) (ins k).1 (ins k).2).1

/-- Whether the update driver records a spike at step `k`. -/
def glif_spiked_at (env : DriverEnv) (ins : ℕ → List ℚ × ℚ) (st0 : DriverState)
    (k : ℕ) : Bool :=
  (glif_update_step env (glif_state_at env ins st0 k) (ins k).1 (ins k).2).2

/-- Modelled from the spec (user docs lines 55-57 and §3;
`Variables_::CondInitialValues_` is filled in glif_cond.cpp): the cached
peak-normalization amplitude of a receptor with synaptic time constant
`tau`, chosen so that an event of weight 1 yields a peak conductance of 1 nS
at `t = tau`. -/
noncomputable def CondInitialValue (tau : ℝ) : ℝ :=
  Real.exp 1 / tau

/-- Modelled from the spec (§4.4, glossary): the alpha-function conductance
waveform of a receptor with synaptic time constant `tau`, `t` after a spike
of weight `w` arrived at the previously quiescent receptor. -/
noncomputable def alphaConductance (w tau t : ℝ) : ℝ :=
  w * CondInitialValue tau * t * Real.exp (-(t / tau))

/-- A concrete single-receptor parameter set, used to evaluate theorems on
closed inputs. -/
def sampleParams : Parameters :=
  { G_ := 10, E_L_ := -79, th_inf_ := 27, C_m_ := 59, t_ref_ := 4, V_reset_ := 0,
    th_spike_add_ := 1, th_spike_decay_ := 1, voltage_reset_fraction_ := 0,
    voltage_reset_add_ := 2, th_voltage_index_ := 0, th_voltage_decay_ := 1,
    asc_init_ := [0, 0], asc_decay_ := [1, 2], asc_amps_ := [-10, -100],
    asc_r_ := [1, 1], tau_syn_ := [2], E_rev_ := [0], has_connections_ := false,
    has_theta_spike_ := true, has_asc_ := true, has_theta_voltage_ := true }

/-- A concrete state matching `sampleParams` (one receptor, so `y_` has
length 3). -/
def sampleState : State :=
  { threshold_ := 106, threshold_spike_ := 0, threshold_voltage_ := 0,
    ASCurrents_ := [0, 0], ASCurrents_sum_ := 0, refractory_steps_ := 0,
    y_ := [0, 0, 0] }

/-- A concrete neuron built from `sampleParams` and `sampleState`. -/
def sampleNeuron : Neuron :=
  { P_ := sampleParams, S_ := sampleState, B_I_ := 0,
    recordablesMap_ := glifRecordablesMap sampleParams.n_receptors_ }

/-- A concrete driver environment whose black-box stepper is the identity
(the refractory-phase claims never invoke it). -/
def sampleEnv : DriverEnv :=
  { has_theta_spike_ := true, has_asc_ := true, has_theta_voltage_ := true,
    th_base_ := 2, V_reset_rel_ := 0, voltage_reset_fraction_ := 0,
    voltage_reset_add_ := 6, th_spike_add_ := 4, asc_amps_ := [], asc_r_ := [],
    RefractoryCounts_ := 2, theta_spike_decay_rate_ := 3/4,
    theta_spike_refractory_decay_rate_ := 3/4, theta_voltage_decay_rate_ := 1/2,
    theta_voltage_drive_ := 0, asc_decay_rates_ := [],
    asc_refractory_decay_rates_ := [], CondInitialValues_ := [],
    integrate := fun v c _ => (v, c), condEvolveRefr := fun c => c }

/-- A concrete driver state inside the refractory period. -/
def sampleDriverState : DriverState :=
  { v_ := 6, conds_ := [], threshold_spike_ := 0, threshold_voltage_ := 0,
    ASCurrents_ := [], refractory_steps_ := 1 }

/-- Zero input on every step: no incoming spikes, no injected current. -/
def zeroIns : ℕ → List ℚ × ℚ :=
  fun _ => ([], 0)

/-- The empty status-dictionary update (no field present). -/
def emptyUpdate : ParamUpdate := {}

/-- An update that sets an illegal mechanism-flag combination
`(false, true, true)` on `sampleParams`. -/
def badFlagsUpdate : ParamUpdate :=
  { spike_dependent_threshold? := some false, adapting_threshold? := some true }

/-- An update whose after-spike-current state array violates the
array-length invariant of `sampleParams` (1 entry instead of 2), so that
parameter validation succeeds but state validation throws. -/
def badAscUpdate : ParamUpdate :=
  { ASCurrents? := some [0] }

/-- The inductive configuration of the runaway-spiking regime: the neuron is
inside its refractory period, the voltage sits at (or above) the baseline
threshold plus the bound `K` on the accumulated spike component, and the
spike component itself is between 0 and `K`. -/
def runawayInv (env : DriverEnv) (K : ℚ) (st : DriverState) : Prop :=
  1 ≤ st.refractory_steps_ ∧ env.th_base_ + K ≤ st.v_ ∧
    0 ≤ st.threshold_spike_ ∧ st.threshold_spike_ ≤ K

/-- The runaway witness environment: spike-dependent threshold on, adapting
threshold off, decay multiplier 1/2, spike increment 2, baseline 2,
full-offset reset to 6. -/
def runawayEnv : DriverEnv :=
  { has_theta_spike_ := true, has_asc_ := false, has_theta_voltage_ := false,
    th_base_ := 2, V_reset_rel_ := 0, voltage_reset_fraction_ := 0,
    voltage_reset_add_ := 6, th_spike_add_ := 2, asc_amps_ := [], asc_r_ := [],
    RefractoryCounts_ := 1, theta_spike_decay_rate_ := 1/2,
    theta_spike_refractory_decay_rate_ := 1/2, theta_voltage_decay_rate_ := 1,
    theta_voltage_drive_ := 0, asc_decay_rates_ := [],
    asc_refractory_decay_rates_ := [], CondInitialValues_ := [],
    integrate := fun v c _ => (v, c), condEvolveRefr := fun c => c }

/-- The runaway witness start state: just after a spike, voltage 6,
refractory counter 1. -/
def runawaySt0 : DriverState :=
  { v_ := 6, conds_ := [], threshold_spike_ := 0, threshold_voltage_ := 0,
    ASCurrents_ := [], refractory_steps_ := 1 }

/-- The counterexample environment for C6 as stated: flags `(T,T,T)` (with
inert after-spike currents and zero voltage-component drive), baseline
threshold 2, spike increment 4, refractory decay multiplier 3/4, full-offset
reset to 6; the documented condition holds with equality
(`0·2 + 6 ≥ 2 + 4`). -/
def cexEnv : DriverEnv :=
  { has_theta_spike_ := true, has_asc_ := true, has_theta_voltage_ := true,
    th_base_ := 2, V_reset_rel_ := 0, voltage_reset_fraction_ := 0,
    voltage_reset_add_ := 6, th_spike_add_ := 4, asc_amps_ := [], asc_r_ := [],
    RefractoryCounts_ := 2, theta_spike_decay_rate_ := 3/4,
    theta_spike_refractory_decay_rate_ := 3/4, theta_voltage_decay_rate_ := 1/2,
    theta_voltage_drive_ := 0, asc_decay_rates_ := [],
    asc_refractory_decay_rates_ := [], CondInitialValues_ := [],
    integrate := fun v c _ => (v, c), condEvolveRefr := fun c => c }

/-- The counterexample start state: voltage 6 (above the baseline threshold),
no accumulated components, not refractory. -/
def cexSt0 : DriverState :=
  { v_ := 6, conds_ := [], threshold_spike_ := 0, threshold_voltage_ := 0,
    ASCurrents_ := [], refractory_steps_ := 0 }

/-- An update growing the sample neuron from one receptor port to two. -/
def growUpdate : ParamUpdate :=
  { tau_syn? := some [2, 3], E_rev? := some [0, 0] }

/-- The sample neuron after `growUpdate`: two receptors, state vector of
length 5, canonical registry of two conductance channels. -/
def sampleNeuron2 : Neuron :=
  { P_ := { sampleParams with tau_syn_ := [2, 3], E_rev_ := [0, 0] }
    S_ := { sampleState with y_ := [0, 0, 0, 0, 0] }
    B_I_ := 0
    recordablesMap_ := glifRecordablesMap 2 }

/-- Unfolding a successful `Parameters.set`: the result is the overlay of the
update, every validation check passed, and the returned shift is the change
in resting potential. -/
lemma Parameters_set_ok {p : Parameters} {d : ParamUpdate} {c : Parameters}
    {dEL : ℚ} (h : Parameters.set p d = .ok (c, dEL)) :
    c = p.overlay d ∧ ascLengthsOK c = true ∧ receptorLengthsOK c = true ∧
      legalFlagCombination c.has_theta_spike_ c.has_asc_ c.has_theta_voltage_ = true ∧
      trefOK c = true ∧ dEL = c.E_L_ - p.E_L_ := by
  unfold Parameters.set at h
  split_ifs at h with h1 h2 h3 h4
  rw [Except.ok.injEq, Prod.mk.injEq] at h
  obtain ⟨hc, hd⟩ := h
  subst hc
  exact ⟨rfl, h1, h2, h3, h4, hd.symm⟩

/-- Unfolding a successful `State.set`: the integrated vector starts with the
re-based voltage and has exactly `1 + 2·receptor_count` entries; the
threshold scalars and the refractory counter are carried over. -/
lemma State_set_ok {s : State} {d : ParamUpdate} {c : Parameters} {dEL : ℚ}
    {s' : State} (h : State.set s d c dEL = .ok s') :
    s'.y_.length = NUMBER_OF_FIXED_STATES_ELEMENTS +
        NUMBER_OF_STATES_ELEMENTS_PER_RECEPTOR * c.n_receptors_ ∧
      s'.refractory_steps_ = s.refractory_steps_ ∧
      s'.threshold_ = s.threshold_ ∧ (∃ v rest, s'.y_ = v :: rest) := by
  unfold State.set at h
  split_ifs at h with h1
  rw [Except.ok.injEq] at h
  subst h
  refine ⟨?_, rfl, rfl, ⟨_, _, rfl⟩⟩
  simp only [stateBody, List.length_cons, List.length_append,
    List.length_replicate, List.length_take, List.length_drop,
    NUMBER_OF_FIXED_STATES_ELEMENTS, NUMBER_OF_STATES_ELEMENTS_PER_RECEPTOR]
  omega

/-- Unfolding a successful `set_status`: both validations succeeded and the
temporaries were committed, with the recordables registry reconciled to the
candidate receptor count. -/
lemma set_status_ok {nrn : Neuron} {d : ParamUpdate} {nrn' : Neuron}
    (h : set_status nrn d = .ok nrn') :
    ∃ c dEL s, Parameters.set nrn.P_ d = .ok (c, dEL) ∧
      State.set nrn.S_ d c dEL = .ok s ∧ nrn'.P_ = c ∧ nrn'.S_ = s ∧
      nrn'.B_I_ = nrn.B_I_ ∧
      nrn'.recordablesMap_ =
        (if nrn.P_.n_receptors_ < c.n_receptors_ then
          nrn.recordablesMap_ ++
            gEntries nrn.P_.n_receptors_ (c.n_receptors_ - nrn.P_.n_receptors_)
        else if c.n_receptors_ < nrn.P_.n_receptors_ then
          ((List.range' c.n_receptors_
              (nrn.P_.n_receptors_ - c.n_receptors_)).map
            get_g_receptor_name).foldl rmapErase nrn.recordablesMap_
        else nrn.recordablesMap_) := by
  unfold set_status at h
  split at h
  · cases h
  · rename_i ptmp delta_EL hp
    split at h
    · cases h
    · rename_i stmp hs
      simp only [Except.ok.injEq] at h
      subst h
      exact ⟨ptmp, delta_EL, stmp, hp, hs, rfl, rfl, rfl, rfl⟩

/-- Unfolding a failed `set_status`: the error is returned with the neuron
exactly as it was before the call (both validations run on temporaries). -/
lemma set_status_error {nrn : Neuron} {d : ParamUpdate} {e : Err} {n' : Neuron}
    (h : set_status nrn d = .error (e, n')) : n' = nrn := by
  unfold set_status at h
  split at h
  · simp only [Except.error.injEq, Prod.mk.injEq] at h
    exact h.2.symm
  · split at h
    · simp only [Except.error.injEq, Prod.mk.injEq] at h
      exact h.2.symm
    · cases h

/-- C7: The membrane-voltage and composite-threshold recordable channels
report absolute values — `get_state_element` returns the stored rest-relative
value plus `E_L_` for `V_M` and `TH` — while the spike-threshold and
voltage-threshold component channels return the stored component values
unshifted. -/
theorem spec_c7_absolute_channels (nrn : Neuron) :
    get_state_element nrn V_M = nrn.S_.y_.getD V_M 0 + nrn.P_.E_L_ ∧
    get_state_element nrn TH = nrn.S_.threshold_ + nrn.P_.E_L_ ∧
    get_state_element nrn TH_SPK = nrn.S_.threshold_spike_ ∧
    get_state_element nrn TH_VLT = nrn.S_.threshold_voltage_ := by
  refine ⟨rfl, ?_, ?_, ?_⟩ <;>
    simp [get_state_element, V_M, I, ASC_SUM, TH, TH_SPK, TH_VLT]

/-- C8: a current event or data-logging request is accepted exactly on
port 0 and otherwise raises `UnknownReceptorType`; a spike event is accepted
exactly for a port in `[0, receptor_count)`; rejection is a synchronous
throw, before anything is mutated. -/
theorem spec_c8_event_ports (p : Parameters) (port : ℤ) :
    ((∃ r, handles_test_event_current port = .ok r) ↔ port = 0) ∧
    (¬ port = 0 →
      handles_test_event_current port = .error (.UnknownReceptorType port)) ∧
    ((∃ r, handles_test_event_dlr port = .ok r) ↔ port = 0) ∧
    (¬ port = 0 →
      handles_test_event_dlr port = .error (.UnknownReceptorType port)) ∧
    ((∃ r, handles_test_event_spike p port = .ok r) ↔
      0 ≤ port ∧ port < (p.n_receptors_ : ℤ)) := by
  refine ⟨?_, ?_, ?_, ?_, ?_⟩
  · by_cases h : port = 0 <;> simp [handles_test_event_current, h]
  · intro h; simp [handles_test_event_current, h]
  · by_cases h : port = 0 <;> simp [handles_test_event_dlr, h]
  · intro h; simp [handles_test_event_dlr, h]
  · by_cases h : 0 ≤ port ∧ port < (p.n_receptors_ : ℤ) <;>
      simp [handles_test_event_spike, h]

/-- Witness for C8 at a concrete port: port 3 is rejected by the
current-event check. -/
theorem spec_c8_event_ports_witness :
    handles_test_event_current 3 = .error (.UnknownReceptorType 3) :=
  (spec_c8_event_ports sampleParams 3).2.1 (by decide)

/-- C10: the accessor registered for receptor `r` is bound to element
`G_SYN + 2·r`; `get_state_element` maps it (subtracting the five
recordable-only slots) to `y_[2 + 2·r]`, which is within the bounds of the
state vector of length `1 + 2·receptor_count` and is exactly receptor `r`'s
conductance entry (the second element of its pair). -/
theorem spec_c10_accessor_in_bounds (nrn : Neuron) (r : ℕ)
    (hr : r < nrn.P_.n_receptors_)
    (hy : nrn.S_.y_.length = NUMBER_OF_FIXED_STATES_ELEMENTS +
      NUMBER_OF_STATES_ELEMENTS_PER_RECEPTOR * nrn.P_.n_receptors_) :
    (G_SYN + r * NUMBER_OF_STATES_ELEMENTS_PER_RECEPTOR) -
        NUMBER_OF_RECORDABLES_ELEMENTS = 2 + 2 * r ∧
    2 + 2 * r < nrn.S_.y_.length ∧
    get_state_element nrn (G_SYN + r * NUMBER_OF_STATES_ELEMENTS_PER_RECEPTOR) =
      nrn.S_.y_.getD (2 + 2 * r) 0 ∧
    2 + 2 * r = NUMBER_OF_FIXED_STATES_ELEMENTS +
      r * NUMBER_OF_STATES_ELEMENTS_PER_RECEPTOR + 1 := by
  refine ⟨?_, ?_, ?_, ?_⟩
  · simp only [G_SYN, NUMBER_OF_STATES_ELEMENTS_PER_RECEPTOR,
      NUMBER_OF_RECORDABLES_ELEMENTS, DG_SYN]
    omega
  · simp only [NUMBER_OF_FIXED_STATES_ELEMENTS,
      NUMBER_OF_STATES_ELEMENTS_PER_RECEPTOR] at hy
    omega
  · have e0 : ¬ (G_SYN + r * NUMBER_OF_STATES_ELEMENTS_PER_RECEPTOR = V_M) := by
      simp only [G_SYN, NUMBER_OF_STATES_ELEMENTS_PER_RECEPTOR, V_M]; omega
    have e1 : ¬ (G_SYN + r * NUMBER_OF_STATES_ELEMENTS_PER_RECEPTOR = I) := by
      simp only [G_SYN, NUMBER_OF_STATES_ELEMENTS_PER_RECEPTOR, I]; omega
    have e2 : ¬ (G_SYN + r * NUMBER_OF_STATES_ELEMENTS_PER_RECEPTOR = ASC_SUM) := by
      simp only [G_SYN, NUMBER_OF_STATES_ELEMENTS_PER_RECEPTOR, ASC_SUM]; omega
    have e3 : ¬ (G_SYN + r * NUMBER_OF_STATES_ELEMENTS_PER_RECEPTOR = TH) := by
      simp only [G_SYN, NUMBER_OF_STATES_ELEMENTS_PER_RECEPTOR, TH]; omega
    have e4 : ¬ (G_SYN + r * NUMBER_OF_STATES_ELEMENTS_PER_RECEPTOR = TH_SPK) := by
      simp only [G_SYN, NUMBER_OF_STATES_ELEMENTS_PER_RECEPTOR, TH_SPK]; omega
    have e5 : ¬ (G_SYN + r * NUMBER_OF_STATES_ELEMENTS_PER_RECEPTOR = TH_VLT) := by
      simp only [G_SYN, NUMBER_OF_STATES_ELEMENTS_PER_RECEPTOR, TH_VLT]; omega
    rw [get_state_element, if_neg e0, if_neg e1, if_neg e2, if_neg e3,
      if_neg e4, if_neg e5]
    have harith : G_SYN + r * NUMBER_OF_STATES_ELEMENTS_PER_RECEPTOR -
        NUMBER_OF_RECORDABLES_ELEMENTS = 2 + 2 * r := by
      simp only [G_SYN, NUMBER_OF_STATES_ELEMENTS_PER_RECEPTOR,
        NUMBER_OF_RECORDABLES_ELEMENTS, DG_SYN]
      omega
    rw [harith]
  · simp only [NUMBER_OF_FIXED_STATES_ELEMENTS,
      NUMBER_OF_STATES_ELEMENTS_PER_RECEPTOR]
    omega

/-- C1: the mechanism-flag validation accepts
`(spike_dependent_threshold, after_spike_currents, adapting_threshold)`
exactly for the five GLIF tuples; a parameter update whose candidate flags
are any other combination makes the set operation throw, leaving the prior
configuration untouched. -/
theorem spec_c1_flag_validation (nrn : Neuron) (d : ParamUpdate) :
    (∀ s a v : Bool, legalFlagCombination s a v = true ↔
      ((s, a, v) = (false, false, false) ∨ (s, a, v) = (true, false, false) ∨
       (s, a, v) = (false, true, false) ∨ (s, a, v) = (true, true, false) ∨
       (s, a, v) = (true, true, true))) ∧
    (∀ c dEL, Parameters.set nrn.P_ d = .ok (c, dEL) →
      legalFlagCombination c.has_theta_spike_ c.has_asc_ c.has_theta_voltage_
        = true) ∧
    (legalFlagCombination (nrn.P_.overlay d).has_theta_spike_
        (nrn.P_.overlay d).has_asc_ (nrn.P_.overlay d).has_theta_voltage_
        = false →
      set_status nrn d = .error (.BadProperty, nrn)) := by
  refine ⟨by decide, ?_, ?_⟩
  · intro c dEL h
    exact (Parameters_set_ok h).2.2.2.1
  · intro hflag
    have hset : Parameters.set nrn.P_ d = .error .BadProperty := by
      unfold Parameters.set
      split_ifs with h1 h2 h3 h4
      all_goals try rfl
      exact absurd h3 (by simp [hflag])
    unfold set_status
    rw [hset]

/-- Witness for C1: the concrete illegal combination `(false, true, true)`
is rejected and the sample neuron is returned untouched. -/
theorem spec_c1_flag_validation_witness :
    set_status sampleNeuron badFlagsUpdate = .error (.BadProperty, sampleNeuron) :=
  (spec_c1_flag_validation sampleNeuron badFlagsUpdate).2.2 (by decide)

/-- C2: `set_status` is all-or-nothing — every error path returns the neuron
with `P_`, `S_` and the recordables registry exactly as before the call, and
a successful call means both the candidate parameter set and the candidate
state passed validation and were committed. -/
theorem spec_c2_all_or_nothing (nrn : Neuron) (d : ParamUpdate) :
    (∀ e n', set_status nrn d = .error (e, n') →
      n'.P_ = nrn.P_ ∧ n'.S_ = nrn.S_ ∧
        n'.recordablesMap_ = nrn.recordablesMap_) ∧
    (∀ n', set_status nrn d = .ok n' →
      ∃ c dEL s, Parameters.set nrn.P_ d = .ok (c, dEL) ∧
        State.set nrn.S_ d c dEL = .ok s ∧ n'.P_ = c ∧ n'.S_ = s) := by
  constructor
  · intro e n' h
    have hn := set_status_error h
    subst hn
    exact ⟨rfl, rfl, rfl⟩
  · intro n' h
    obtain ⟨c, dEL, s, hp, hs, hP, hS, _, _⟩ := set_status_ok h
    exact ⟨c, dEL, s, hp, hs, hP, hS⟩

/-- Witness for C2: a state-validation failure (after-spike-current array of
the wrong length) leaves the sample neuron's parameters, state and registry
untouched. -/
theorem spec_c2_all_or_nothing_witness :
    sampleNeuron.P_ = sampleNeuron.P_ ∧ sampleNeuron.S_ = sampleNeuron.S_ ∧
      sampleNeuron.recordablesMap_ = sampleNeuron.recordablesMap_ :=
  (spec_c2_all_or_nothing sampleNeuron badAscUpdate).1 .BadProperty sampleNeuron
    (by rfl)

/-- C4: after every successful `set_status`, the receptor count equals the
length of `tau_syn_` (and of `E_rev_`), the integrated state vector has
length `1 + 2·receptor_count` with the membrane voltage slot `V_M` at
index 0, and each receptor's (derivative-proxy, conductance) pair lies
within bounds. -/
theorem spec_c4_state_layout (nrn : Neuron) (d : ParamUpdate) (nrn' : Neuron)
    (h : set_status nrn d = .ok nrn') :
    nrn'.P_.n_receptors_ = nrn'.P_.tau_syn_.length ∧
    nrn'.P_.tau_syn_.length = nrn'.P_.E_rev_.length ∧
    nrn'.S_.y_.length = NUMBER_OF_FIXED_STATES_ELEMENTS +
      NUMBER_OF_STATES_ELEMENTS_PER_RECEPTOR * nrn'.P_.n_receptors_ ∧
    V_M = 0 ∧
    (∀ r, r < nrn'.P_.n_receptors_ →
      NUMBER_OF_FIXED_STATES_ELEMENTS +
          r * NUMBER_OF_STATES_ELEMENTS_PER_RECEPTOR < nrn'.S_.y_.length ∧
      NUMBER_OF_FIXED_STATES_ELEMENTS +
          r * NUMBER_OF_STATES_ELEMENTS_PER_RECEPTOR + 1 < nrn'.S_.y_.length) := by
  obtain ⟨c, dEL, s, hp, hs, hP, hS, _, _⟩ := set_status_ok h
  subst hP
  subst hS
  have hrec := (Parameters_set_ok hp).2.2.1
  have hlen := (State_set_ok hs).1
  simp only [receptorLengthsOK, decide_eq_true_eq] at hrec
  refine ⟨rfl, hrec, hlen, rfl, ?_⟩
  intro r hr
  simp only [NUMBER_OF_FIXED_STATES_ELEMENTS,
    NUMBER_OF_STATES_ELEMENTS_PER_RECEPTOR] at hlen ⊢
  unfold Parameters.n_receptors_ at hlen hr
  omega

/-- Witness for C4: the empty update succeeds on the sample neuron (fixed
point) and its single-receptor state vector has length 3. -/
theorem spec_c4_state_layout_witness :
    sampleNeuron.S_.y_.length = NUMBER_OF_FIXED_STATES_ELEMENTS +
      NUMBER_OF_STATES_ELEMENTS_PER_RECEPTOR * sampleNeuron.P_.n_receptors_ :=
  (spec_c4_state_layout sampleNeuron emptyUpdate sampleNeuron
    (by norm_num [set_status, Parameters.set, State.set, Parameters.overlay,
      ascLengthsOK, receptorLengthsOK, legalFlagCombination, trefOK,
      sampleNeuron, sampleParams, sampleState, stateBody, rebasedVoltage,
      Parameters.n_receptors_, emptyUpdate, NUMBER_OF_FIXED_STATES_ELEMENTS,
      NUMBER_OF_STATES_ELEMENTS_PER_RECEPTOR])).2.2.1

/-- The alpha waveform rewritten in the dimensionless variable `t / tau`. -/
lemma alphaConductance_eq (w tau t : ℝ) (htau : 0 < tau) :
    alphaConductance w tau t =
      w * ((t / tau) * Real.exp (1 - t / tau)) := by
  unfold alphaConductance CondInitialValue
  rw [show (1 : ℝ) - t / tau = 1 + -(t / tau) by ring, Real.exp_add]
  field_simp
  ring

/-- The dimensionless alpha kernel `x · e^(1-x)` never exceeds 1. -/
lemma alpha_kernel_le_one (x : ℝ) :
    x * Real.exp (1 - x) ≤ 1 := by
  have h2 : x ≤ Real.exp (x - 1) := by
    have h := Real.add_one_le_exp (x - 1)
    linarith
  have h4 : x * Real.exp (1 - x) ≤ Real.exp (x - 1) * Real.exp (1 - x) :=
    mul_le_mul_of_nonneg_right h2 (Real.exp_pos _).le
  rw [← Real.exp_add] at h4
  calc x * Real.exp (1 - x) ≤ Real.exp (x - 1 + (1 - x)) := h4
    _ = 1 := by rw [show x - 1 + (1 - x) = 0 by ring, Real.exp_zero]

/-- C9: a spike of weight `w` into a previously quiescent receptor with
synaptic time constant `tau` produces the peak-normalized alpha conductance
waveform, whose value at elapsed time `tau` is exactly `w` and which never
exceeds `w`: the peak is `w`, attained at `t = tau`. -/
theorem spec_c9_alpha_peak (w tau t : ℝ) (htau : 0 < tau) (hw : 0 ≤ w)
    (ht : 0 ≤ t) :
    alphaConductance w tau tau = w ∧ alphaConductance w tau t ≤ w := by
  constructor
  · rw [alphaConductance_eq w tau tau htau, div_self htau.ne']
    simp [Real.exp_zero]
  · rw [alphaConductance_eq w tau t htau]
    have hk := alpha_kernel_le_one (t / tau)
    have hb := mul_le_mul_of_nonneg_left hk hw
    simpa using hb

/-- Witness for C9 at the concrete input `w = 1, tau = 1`: the waveform
reaches 1 at `t = 1` and is bounded by 1. -/
theorem spec_c9_alpha_peak_witness :
    alphaConductance 1 1 1 = 1 ∧ alphaConductance 1 1 1 ≤ 1 :=
  spec_c9_alpha_peak 1 1 1 one_pos zero_le_one zero_le_one

/-- The evolved state of a step entered inside the refractory period: the
voltage is held, the counter decremented, and the refractory-phase decay
rates apply. -/
lemma evolvedState_refractory (env : DriverEnv) (st : DriverState)
    (w : List ℚ) (i : ℚ) (h : 0 < st.refractory_steps_) :
    evolvedState env st w i =
      { v_ := st.v_
        conds_ := env.condEvolveRefr
          (injectSpikes env.CondInitialValues_ st.conds_ w)
        threshold_spike_ :=
          if env.has_theta_spike_ then
            env.theta_spike_refractory_decay_rate_ * st.threshold_spike_
          else 0
        threshold_voltage_ :=
          if env.has_theta_voltage_ then
            env.theta_voltage_decay_rate_ * st.threshold_voltage_ +
              env.theta_voltage_drive_ * st.v_
          else 0
        ASCurrents_ :=
          if env.has_asc_ then
            List.zipWith (· * ·) env.asc_refractory_decay_rates_ st.ASCurrents_
          else List.replicate st.ASCurrents_.length 0
        refractory_steps_ := st.refractory_steps_ - 1 } := by
  simp [evolvedState, decide_eq_true h]

/-- The step records a spike exactly when the evolved voltage has reached
the recomputed composite threshold. -/
lemma glif_update_step_spike (env : DriverEnv) (st : DriverState)
    (w : List ℚ) (i : ℚ)
    (h : compositeThreshold env (evolvedState env st w i) ≤
      (evolvedState env st w i).v_) :
    glif_update_step env st w i =
      (spikeReset env (evolvedState env st w i)
        (compositeThreshold env (evolvedState env st w i)), true) := by
  rw [glif_update_step, if_pos h]

/-- Without a threshold crossing the step commits the evolved state
unchanged. -/
lemma glif_update_step_no_spike (env : DriverEnv) (st : DriverState)
    (w : List ℚ) (i : ℚ)
    (h : ¬ compositeThreshold env (evolvedState env st w i) ≤
      (evolvedState env st w i).v_) :
    glif_update_step env st w i = (evolvedState env st w i, false) := by
  rw [glif_update_step, if_neg h]

/-- C5: in every update step entered with a positive refractory counter, the
integration leaves the membrane voltage untouched (it stays at its post-reset
value) and the counter is decremented (unless a spike fires in that step, in
which case it is re-armed); immediately after any step that records a spike
the counter equals the cached refractory-step count; and the counter never
becomes negative. -/
theorem spec_c5_refractory_hold (env : DriverEnv) (st : DriverState)
    (w : List ℚ) (i : ℚ) (hR : 0 ≤ env.RefractoryCounts_)
    (h0 : 0 ≤ st.refractory_steps_) :
    (0 < st.refractory_steps_ → (glif_update_step env st w i).2 = false →
      (glif_update_step env st w i).1.v_ = st.v_ ∧
      (glif_update_step env st w i).1.refractory_steps_ =
        st.refractory_steps_ - 1) ∧
    ((glif_update_step env st w i).2 = true →
      (glif_update_step env st w i).1.refractory_steps_ =
        env.RefractoryCounts_) ∧
    0 ≤ (glif_update_step env st w i).1.refractory_steps_ := by
  by_cases hsp : compositeThreshold env (evolvedState env st w i) ≤
      (evolvedState env st w i).v_
  · rw [glif_update_step_spike env st w i hsp]
    refine ⟨fun _ hc => ?_, fun _ => ?_, ?_⟩
    · simp at hc
    · simp [spikeReset]
    · simpa [spikeReset] using hR
  · rw [glif_update_step_no_spike env st w i hsp]
    refine ⟨fun h1 _ => ?_, fun hc => ?_, ?_⟩
    · rw [evolvedState_refractory env st w i h1]
      exact ⟨rfl, rfl⟩
    · simp at hc
    · by_cases h1 : 0 < st.refractory_steps_
      · rw [evolvedState_refractory env st w i h1]
        dsimp only
        omega
      · have hd : decide (0 < st.refractory_steps_) = false := decide_eq_false h1
        simp [evolvedState, hd, h0]

/-- Witness for C5: a concrete refractory step (counter 1) of the sample
environment ends with a non-negative counter. -/
theorem spec_c5_refractory_hold_witness :
    0 ≤ (glif_update_step sampleEnv sampleDriverState [] 0).1.refractory_steps_ :=
  (spec_c5_refractory_hold sampleEnv sampleDriverState [] 0 (by decide)
    (by decide)).2.2

/-- One step of the driver preserves the runaway configuration and records a
spike, whatever the step's input. -/
lemma runaway_step (env : DriverEnv) (K : ℚ) (st : DriverState)
    (w : List ℚ) (i : ℚ)
    (hspk : env.has_theta_spike_ = true)
    (hvlt : env.has_theta_voltage_ = false)
    (hR : 1 ≤ env.RefractoryCounts_)
    (hf : 0 ≤ env.voltage_reset_fraction_)
    (hr : 0 ≤ env.theta_spike_refractory_decay_rate_)
    (hr1 : env.theta_spike_refractory_decay_rate_ ≤ 1)
    (hsadd : 0 ≤ env.th_spike_add_)
    (hK : env.theta_spike_refractory_decay_rate_ * K + env.th_spike_add_ ≤ K)
    (hcond : env.th_base_ + K ≤
      env.voltage_reset_fraction_ * env.th_base_ + env.voltage_reset_add_)
    (hinv : runawayInv env K st) :
    (glif_update_step env st w i).2 = true ∧
      runawayInv env K (glif_update_step env st w i).1 := by
  obtain ⟨hrefr, hv, hs0, hsK⟩ := hinv
  have hrefr' : 0 < st.refractory_steps_ := by omega
  have hsdec : env.theta_spike_refractory_decay_rate_ * st.threshold_spike_ ≤
      st.threshold_spike_ := by
    nlinarith
  have hsdec0 : 0 ≤ env.theta_spike_refractory_decay_rate_ * st.threshold_spike_ :=
    mul_nonneg hr hs0
  have hsdecK : env.theta_spike_refractory_decay_rate_ * st.threshold_spike_ ≤
      env.theta_spike_refractory_decay_rate_ * K :=
    mul_le_mul_of_nonneg_left hsK hr
  have hes := evolvedState_refractory env st w i hrefr'
  have hesS : (evolvedState env st w i).threshold_spike_ =
      env.theta_spike_refractory_decay_rate_ * st.threshold_spike_ := by
    rw [hes]; simp [hspk]
  have hesV : (evolvedState env st w i).threshold_voltage_ = 0 := by
    rw [hes]; simp [hvlt]
  have hesv : (evolvedState env st w i).v_ = st.v_ := by rw [hes]
  have hth : compositeThreshold env (evolvedState env st w i) =
      env.th_base_ + env.theta_spike_refractory_decay_rate_ * st.threshold_spike_ := by
    rw [compositeThreshold, hesS, hesV, add_zero]
  have hsp : compositeThreshold env (evolvedState env st w i) ≤
      (evolvedState env st w i).v_ := by
    rw [hth, hesv]
    have : env.theta_spike_refractory_decay_rate_ * st.threshold_spike_ ≤ K :=
      le_trans hsdec hsK
    linarith
  rw [glif_update_step_spike env st w i hsp]
  refine ⟨rfl, ?_, ?_, ?_, ?_⟩
  · simpa [spikeReset] using hR
  · simp [spikeReset, hspk, hth]
    have hbase : env.voltage_reset_fraction_ * env.th_base_ ≤
        env.voltage_reset_fraction_ *
          (env.th_base_ + env.theta_spike_refractory_decay_rate_ *
            st.threshold_spike_) :=
      mul_le_mul_of_nonneg_left (by linarith) hf
    linarith
  · simp [spikeReset, hspk, hesS]
    linarith
  · simp [spikeReset, hspk, hesS]
    linarith

/-- C6 (amended): with the spike-dependent mechanism on, the adaptive
voltage component off, a refractory period of at least one step, and the
post-reset voltage at least `th_base + K` for a bound `K` absorbing the
accumulated spike component (`r·K + th_spike_add ≤ K`), a neuron starting in
the runaway configuration records a spike on every subsequent step,
regardless of the input sequence. -/
theorem spec_c6_runaway_amended (env : DriverEnv) (ins : ℕ → List ℚ × ℚ)
    (st0 : DriverState) (K : ℚ)
    (hspk : env.has_theta_spike_ = true)
    (hvlt : env.has_theta_voltage_ = false)
    (hR : 1 ≤ env.RefractoryCounts_)
    (hf : 0 ≤ env.voltage_reset_fraction_)
    (hr : 0 ≤ env.theta_spike_refractory_decay_rate_)
    (hr1 : env.theta_spike_refractory_decay_rate_ ≤ 1)
    (hsadd : 0 ≤ env.th_spike_add_)
    (hK : env.theta_spike_refractory_decay_rate_ * K + env.th_spike_add_ ≤ K)
    (hcond : env.th_base_ + K ≤
      env.voltage_reset_fraction_ * env.th_base_ + env.voltage_reset_add_)
    (hinv : runawayInv env K st0) :
    ∀ k, glif_spiked_at env ins st0 k = true := by
  have hstate : ∀ k, runawayInv env K (glif_state_at env ins st0 k) := by
    intro k
    induction k with
    | zero => exact hinv
    | succ n ih =>
      exact (runaway_step env K (glif_state_at env ins st0 n) (ins n).1
        (ins n).2 hspk hvlt hR hf hr hr1 hsadd hK hcond ih).2
  intro k
  exact (runaway_step env K (glif_state_at env ins st0 k) (ins k).1
    (ins k).2 hspk hvlt hR hf hr hr1 hsadd hK hcond (hstate k)).1

/-- Witness for the amended C6: the concrete runaway configuration spikes at
step 5 (with `K = 4`). -/
theorem spec_c6_runaway_amended_witness :
    glif_spiked_at runawayEnv zeroIns runawaySt0 5 = true :=
  spec_c6_runaway_amended runawayEnv zeroIns runawaySt0 4 rfl rfl (by decide)
    (by norm_num [runawayEnv]) (by norm_num [runawayEnv])
    (by norm_num [runawayEnv]) (by norm_num [runawayEnv])
    (by norm_num [runawayEnv]) (by norm_num [runawayEnv])
    ⟨by decide, by norm_num [runawayEnv, runawaySt0],
      by norm_num [runawaySt0], by norm_num [runawaySt0]⟩ 5

lemma glif_state_at_zero (env : DriverEnv) (ins : ℕ → List ℚ × ℚ)
    (st0 : DriverState) : glif_state_at env ins st0 0 = st0 := rfl

lemma glif_state_at_one (env : DriverEnv) (ins : ℕ → List ℚ × ℚ)
    (st0 : DriverState) :
    glif_state_at env ins st0 1 =
      (glif_update_step env st0 (ins 0).1 (ins 0).2).1 := rfl

lemma glif_state_at_two (env : DriverEnv) (ins : ℕ → List ℚ × ℚ)
    (st0 : DriverState) :
    glif_state_at env ins st0 2 =
      (glif_update_step env (glif_state_at env ins st0 1) (ins 1).1
        (ins 1).2).1 := rfl

/-- Counterexample to C6 as stated: a concrete parameter set with the
spike-dependent threshold enabled whose post-reset voltage (6) is at least
the post-reset threshold (`V_th + th_spike_add` = 6), yet the driver spikes
at steps 0 and 1 and records no spike at step 2, because the accumulated
spike-threshold component (decayed 4 + 4 = 7, then decayed 7 = 21/4) lifts
the composite threshold to 29/4 > 6. -/
theorem spec_c6_counterexample :
    cexEnv.has_theta_spike_ = true ∧ cexEnv.has_asc_ = true ∧
    cexEnv.has_theta_voltage_ = true ∧
    cexEnv.th_base_ + cexEnv.th_spike_add_ ≤
      cexEnv.voltage_reset_fraction_ * cexEnv.th_base_ +
        cexEnv.voltage_reset_add_ ∧
    glif_spiked_at cexEnv zeroIns cexSt0 0 = true ∧
    glif_spiked_at cexEnv zeroIns cexSt0 1 = true ∧
    glif_spiked_at cexEnv zeroIns cexSt0 2 = false := by
  refine ⟨rfl, rfl, rfl, by norm_num [cexEnv], ?_, ?_, ?_⟩ <;>
    norm_num [glif_spiked_at, glif_state_at_zero, glif_state_at_one,
      glif_state_at_two, glif_update_step, evolvedState, compositeThreshold,
      spikeReset, injectSpikes, ascSpikeReset, cexEnv, cexSt0, zeroIns]

/-- Folding `rmapErase` over a list of keys removes exactly the entries
whose key is in that list. -/
lemma foldl_rmapErase (ks : List RecName) (m : RecMap) :
    ks.foldl rmapErase m = m.filter (fun e => decide (e.1 ∉ ks)) := by
  induction ks generalizing m with
  | nil =>
    simp only [List.foldl_nil]
    exact (List.filter_eq_self.mpr (fun a _ => by simp)).symm
  | cons k ks ih =>
    rw [List.foldl_cons, ih (rmapErase m k), rmapErase, List.filter_filter]
    apply List.filter_congr
    intro e _
    by_cases h1 : e.1 = k <;> by_cases h2 : e.1 ∈ ks <;> simp [h1, h2]

/-- Consecutive blocks of conductance entries concatenate. -/
lemma gEntries_append (a b c : ℕ) :
    gEntries a b ++ gEntries (a + b) c = gEntries a (b + c) := by
  unfold gEntries
  rw [← List.map_append]
  congr 1
  have h := List.range'_append a b c 1
  simp only [Nat.one_mul] at h
  rw [h, Nat.add_comm c b]

/-- Inserting the conductance channels of the new receptors `[n, m)` into
the canonical registry of `n` receptors yields the canonical registry of `m`
receptors. -/
lemma glifRecordablesMap_insert (n m : ℕ) (h : n ≤ m) :
    glifRecordablesMap n ++ gEntries n (m - n) = glifRecordablesMap m := by
  unfold glifRecordablesMap
  rw [List.append_assoc]
  have h2 : gEntries 0 n ++ gEntries n (m - n) = gEntries 0 (n + (m - n)) := by
    have := gEntries_append 0 n (m - n)
    simpa using this
  have h3 : n + (m - n) = m := by omega
  rw [h2, h3]

/-- A conductance key lies in a mapped `range'` of keys exactly when its
index lies in the range. -/
lemma g_mem_gnames (r s c : ℕ) :
    RecName.g r ∈ (List.range' s c).map get_g_receptor_name ↔
      s ≤ r ∧ r < s + c := by
  simp only [get_g_receptor_name, List.mem_map, List.mem_range'_1]
  constructor
  · rintro ⟨a, ha, hg⟩
    cases hg
    exact ha
  · intro hr
    exact ⟨r, hr, rfl⟩

/-- The six fixed channels survive erasure by any list of conductance
keys. -/
lemma fixed_filter (ks : List RecName) (hks : ∀ x ∈ ks, ∃ r, x = RecName.g r) :
    fixedRecordables.filter (fun e => decide (e.1 ∉ ks)) = fixedRecordables := by
  apply List.filter_eq_self.mpr
  intro a ha
  simp only [decide_eq_true_eq]
  intro hmem
  obtain ⟨r, hr⟩ := hks _ hmem
  fin_cases ha <;> simp at hr

/-- Filtering `range' 0 n` by `· < m` gives `range' 0 m` when `m ≤ n`. -/
lemma range'_filter_lt (n m : ℕ) (h : m ≤ n) :
    (List.range' 0 n).filter (fun r => decide (r < m)) = List.range' 0 m := by
  have hsplit : List.range' 0 m ++ List.range' m (n - m) = List.range' 0 n := by
    have hr := List.range'_append 0 m (n - m) 1
    simp only [Nat.one_mul, Nat.zero_add] at hr
    rw [hr]
    congr 1
    omega
  have h1 : (List.range' 0 m).filter (fun r => decide (r < m)) =
      List.range' 0 m := by
    apply List.filter_eq_self.mpr
    intro a ha
    simp only [List.mem_range'_1] at ha
    simpa using by omega
  have h2 : (List.range' m (n - m)).filter (fun r => decide (r < m)) = [] := by
    apply List.filter_eq_nil_iff.mpr
    intro a ha
    simp only [List.mem_range'_1] at ha
    simpa using by omega
  rw [← hsplit, List.filter_append, h1, h2, List.append_nil]

/-- Erasing the conductance keys of receptors `[m, n)` from the canonical
conductance block of `n` receptors leaves the block of `m` receptors. -/
lemma gEntries_filter (n m : ℕ) (h : m ≤ n) :
    (gEntries 0 n).filter
      (fun e => decide
        (e.1 ∉ (List.range' m (n - m)).map get_g_receptor_name)) =
      gEntries 0 m := by
  unfold gEntries
  rw [List.filter_map]
  have hc : ((List.range' 0 n).filter
      ((fun e : RecName × ℕ => decide
        (e.1 ∉ (List.range' m (n - m)).map get_g_receptor_name)) ∘
        (fun receptor => (get_g_receptor_name receptor,
          G_SYN + receptor * NUMBER_OF_STATES_ELEMENTS_PER_RECEPTOR)))) =
      (List.range' 0 n).filter (fun r => decide (r < m)) := by
    apply List.filter_congr
    intro r hr
    simp only [List.mem_range'_1] at hr
    have hmem := g_mem_gnames r m (n - m)
    by_cases hlt : r < m
    · have : ¬ (m ≤ r ∧ r < m + (n - m)) := by omega
      simp [Function.comp, get_g_receptor_name, hmem, this, hlt]
    · have : m ≤ r ∧ r < m + (n - m) := by omega
      simp [Function.comp, get_g_receptor_name, hmem, this, hlt]
  rw [hc, range'_filter_lt n m h]

/-- Erasing the trailing receptors `[m, n)` from the canonical registry of
`n` receptors yields the canonical registry of `m` receptors. -/
lemma glifRecordablesMap_erase (n m : ℕ) (h : m ≤ n) :
    ((List.range' m (n - m)).map get_g_receptor_name).foldl rmapErase
      (glifRecordablesMap n) = glifRecordablesMap m := by
  rw [foldl_rmapErase]
  unfold glifRecordablesMap
  rw [List.filter_append]
  rw [fixed_filter _ ?_, gEntries_filter n m h]
  intro x hx
  simp only [List.mem_map] at hx
  obtain ⟨r, _, hr⟩ := hx
  exact ⟨r, hr.symm⟩

/-- Receptor `r`'s conductance channel, bound to element `G_SYN + 2·r`, is
in the canonical registry of any `n > r` receptors. -/
lemma g_mem_glifRecordablesMap (r n : ℕ) (h : r < n) :
    (get_g_receptor_name r,
      G_SYN + r * NUMBER_OF_STATES_ELEMENTS_PER_RECEPTOR) ∈
      glifRecordablesMap n := by
  unfold glifRecordablesMap gEntries
  apply List.mem_append_right
  apply List.mem_map.mpr
  refine ⟨r, ?_, rfl⟩
  simp only [List.mem_range'_1]
  omega

/-- C3: for every successful `set_status` on a neuron whose registry is the
canonical one for its receptor count, the new registry is the canonical one
for the new count; on an increase the old entries are kept verbatim (names
and element indices unchanged) and exactly the channels for the new indices
are appended; on a decrease exactly the trailing channels are erased; and
every surviving receptor keeps its channel. -/
theorem spec_c3_recordables_sync (nrn : Neuron) (d : ParamUpdate)
    (nrn' : Neuron) (h : set_status nrn d = .ok nrn')
    (hmap : nrn.recordablesMap_ = glifRecordablesMap nrn.P_.n_receptors_) :
    nrn'.recordablesMap_ = glifRecordablesMap nrn'.P_.n_receptors_ ∧
    (nrn.P_.n_receptors_ < nrn'.P_.n_receptors_ →
      nrn'.recordablesMap_ = nrn.recordablesMap_ ++
        gEntries nrn.P_.n_receptors_
          (nrn'.P_.n_receptors_ - nrn.P_.n_receptors_)) ∧
    (nrn'.P_.n_receptors_ < nrn.P_.n_receptors_ →
      nrn'.recordablesMap_ =
        fixedRecordables ++ gEntries 0 nrn'.P_.n_receptors_) ∧
    (∀ r, r < nrn.P_.n_receptors_ → r < nrn'.P_.n_receptors_ →
      (get_g_receptor_name r,
        G_SYN + r * NUMBER_OF_STATES_ELEMENTS_PER_RECEPTOR) ∈
          nrn.recordablesMap_ ∧
      (get_g_receptor_name r,
        G_SYN + r * NUMBER_OF_STATES_ELEMENTS_PER_RECEPTOR) ∈
          nrn'.recordablesMap_) := by
  obtain ⟨c, dEL, s, hp, hs, hP, hS, hB, hrm⟩ := set_status_ok h
  subst hP
  rw [hmap] at hrm
  by_cases hlt : nrn.P_.n_receptors_ < nrn'.P_.n_receptors_
  · rw [if_pos hlt] at hrm
    have hcanon : nrn'.recordablesMap_ =
        glifRecordablesMap nrn'.P_.n_receptors_ := by
      rw [hrm, glifRecordablesMap_insert _ _ hlt.le]
    refine ⟨hcanon, fun _ => by rw [hrm, hmap], fun hc => absurd hc (by omega),
      fun r hr hr' => ?_⟩
    rw [hmap, hcanon]
    exact ⟨g_mem_glifRecordablesMap r _ hr, g_mem_glifRecordablesMap r _ hr'⟩
  · rw [if_neg hlt] at hrm
    by_cases hgt : nrn'.P_.n_receptors_ < nrn.P_.n_receptors_
    · rw [if_pos hgt] at hrm
      have hcanon : nrn'.recordablesMap_ =
          glifRecordablesMap nrn'.P_.n_receptors_ := by
        rw [hrm, glifRecordablesMap_erase _ _ hgt.le]
      refine ⟨hcanon, fun hc => absurd hc (by omega),
        fun _ => by rw [hcanon]; rfl, fun r hr hr' => ?_⟩
      rw [hmap, hcanon]
      exact ⟨g_mem_glifRecordablesMap r _ hr, g_mem_glifRecordablesMap r _ hr'⟩
    · rw [if_neg hgt] at hrm
      have heq : nrn.P_.n_receptors_ = nrn'.P_.n_receptors_ := by omega
      have hcanon : nrn'.recordablesMap_ =
          glifRecordablesMap nrn'.P_.n_receptors_ := by
        rw [hrm, heq]
      refine ⟨hcanon, fun hc => absurd hc (by omega),
        fun hc => absurd hc (by omega), fun r hr hr' => ?_⟩
      rw [hmap, hcanon]
      exact ⟨g_mem_glifRecordablesMap r _ hr, g_mem_glifRecordablesMap r _ hr'⟩

/-- Witness for C3: after growing the sample neuron to two receptors, the
existing conductance channel for index 0 is still registered with its
element index unchanged. -/
theorem spec_c3_recordables_sync_witness :
    (get_g_receptor_name 0,
      G_SYN + 0 * NUMBER_OF_STATES_ELEMENTS_PER_RECEPTOR) ∈
      sampleNeuron2.recordablesMap_ :=
  ((spec_c3_recordables_sync sampleNeuron growUpdate sampleNeuron2
    (by norm_num [set_status, Parameters.set, State.set, Parameters.overlay,
      ascLengthsOK, receptorLengthsOK, legalFlagCombination, trefOK,
      sampleNeuron, sampleParams, sampleState, sampleNeuron2, stateBody,
      rebasedVoltage, Parameters.n_receptors_, growUpdate, glifRecordablesMap,
      gEntries, fixedRecordables, get_g_receptor_name,
      NUMBER_OF_FIXED_STATES_ELEMENTS, NUMBER_OF_STATES_ELEMENTS_PER_RECEPTOR,
      G_SYN, V_M, I, ASC_SUM, TH, TH_SPK, TH_VLT,
      show List.range' 0 1 = [0] from rfl,
      show List.range' 0 2 = [0, 1] from rfl,
      show List.range' 1 1 = [1] from rfl,
      show List.replicate 2 (0 : ℚ) = [0, 0] from rfl]) rfl).2.2.2 0 (by decide)
    (by decide)).2

/-- Witness for C10 on the concrete sample neuron (one receptor, state
vector of length 3): receptor 0's accessor reads `y_[2]` in bounds. -/
theorem spec_c10_accessor_in_bounds_witness :
    2 + 2 * 0 < sampleNeuron.S_.y_.length ∧
    get_state_element sampleNeuron
        (G_SYN + 0 * NUMBER_OF_STATES_ELEMENTS_PER_RECEPTOR) =
      sampleNeuron.S_.y_.getD (2 + 2 * 0) 0 :=
  ⟨(spec_c10_accessor_in_bounds sampleNeuron 0 (by decide) (by decide)).2.1,
   (spec_c10_accessor_in_bounds sampleNeuron 0 (by decide) (by decide)).2.2.1⟩

end GlifCond
